import Mathlib

/-!
Verification of the GTM-scanner core (`src/app.py`) against its
natural-language specification.

The Python source is shallowly embedded below:
* `find_gtm`            embeds `find_gtm` (app.py lines 10-30);
* `extract_contact_info` embeds `extract_contact_info` (lines 32-57), with the
  parsed page (BeautifulSoup result) modelled as a `PageDoc` record holding the
  raw html, the visible text and the list of anchor hrefs;
* `check_gtm`           embeds `check_gtm` (lines 59-132); the two
  `requests.get` calls (verify on / verify off) are modelled by an
  environment `net : Bool → GetResult` giving the outcome of the GET
  performed with that verification flag;
* `run_batch`           embeds the fan-out/fan-in loop of `main`
  (lines 183-196): one future per input URL, results consumed in an
  arbitrary completion order (a permutation of the submissions).

Python regular expressions are embedded as executable character-list
matchers.  Classes `\w`, `\d`, `\s` are modelled over their ASCII extent
(the strings in the claims are ASCII).
-/

namespace GtmDetect

/-! ## Character classes and small string helpers -/

/-- ASCII extent of Python regex class `\s` : space, tab, newline, carriage
return, vertical tab, form feed. -/
def isPySpace (c : Char) : Bool :=
  c == ' ' || c == '\t' || c == '\n' || c == '\r' || c == '\x0b' || c == '\x0c'

/-- ASCII extent of Python regex class `\w` : letters, digits, underscore. -/
def isWordChar (c : Char) : Bool :=
  c.isAlphanum || c == '_'

/-- Character class `[\w\.-]` of the email pattern (app.py line 37). -/
def emailCls (c : Char) : Bool :=
  isWordChar c || c == '.' || c == '-'

/-- Character class `[-.\s]` of the phone pattern (app.py line 41). -/
def sepCls (c : Char) : Bool :=
  c == '-' || c == '.' || isPySpace c

/-- Embeds Python `s.startswith(pat)`. -/
def strStartsWith (s pat : String) : Bool :=
  pat.data.isPrefixOf s.data

/-- Embeds Python `s.lower()` (ASCII extent). -/
def strLower (s : String) : String :=
  ⟨s.data.map Char.toLower⟩

/-! ## GTM detector (`find_gtm`, app.py lines 10-30)

`re.search(pat, s)` succeeds iff some suffix of `s` begins with a match of
`pat`.  `searchAt p s` scans every suffix with the start-anchored matcher
`p`; each of the five GTM patterns gets its start-anchored matcher. -/

/-- Scan every suffix of the input with the start-anchored matcher `p`
(the position scan performed by `re.search`). -/
def searchAt (p : List Char → Bool) : List Char → Bool
  | [] => p []
  | c :: r => p (c :: r) || searchAt p r

/-- Start-anchored matcher of a literal pattern (no metacharacters). -/
def litSearch (pat : List Char) (s : List Char) : Bool :=
  searchAt (fun t => pat.isPrefixOf t) s

/-- Literal of pattern 1, `googletagmanager\.com/gtm\.js` (app.py line 16). -/
def gtmLit1 : List Char := "googletagmanager.com/gtm.js".data

/-- Literal of pattern 3, `https://www\.googletagmanager\.com/gtm\.js\?id=`
(app.py line 20). -/
def gtmLit3 : List Char := "https://www.googletagmanager.com/gtm.js?id=".data

/-- Literal of pattern 5, `www\.googletagmanager\.com/ns\.html\?id=GTM-`
(app.py line 24). -/
def gtmLit5 : List Char := "www.googletagmanager.com/ns.html?id=GTM-".data

/-- True when the list starts with an uppercase letter or a digit:
the class `[A-Z0-9]` applied to the head. -/
def firstUpperDigit : List Char → Bool
  | c :: _ => c.isUpper || c.isDigit
  | [] => false

/-- Start-anchored matcher of pattern 2, `GTM-[A-Z0-9]+` (app.py line 18):
the literal `GTM-` followed by at least one character of `[A-Z0-9]`
(one such character suffices for `re.search` to succeed). -/
def startsGtmId (t : List Char) : Bool :=
  "GTM-".data.isPrefixOf t && firstUpperDigit (t.drop 4)

/-- Matcher of one `\s*c` step: skip the maximal whitespace run, then
require the character `c`; returns the remainder.  Since the characters it
is used with (`=`, `[`, `]`) are not whitespace, greedily skipping the
maximal run is exactly the regex semantics of `\s*c`. -/
def expectChar (a : Char) (u : List Char) : Option (List Char) :=
  match u.dropWhile isPySpace with
  | c :: r => if c == a then some r else none
  | [] => none

/-- Matcher of `\s*=\s*\[\s*\]`, the part of pattern 4 after the literal
`dataLayer` (app.py line 22). -/
def afterDataLayer (u : List Char) : Bool :=
  ((expectChar '=' u).bind fun r2 =>
    (expectChar '[' r2).bind fun r3 =>
      expectChar ']' r3).isSome

/-- Start-anchored matcher of pattern 4, `dataLayer\s*=\s*\[\s*\]`
(app.py line 22). -/
def startsDataLayerInit (t : List Char) : Bool :=
  "dataLayer".data.isPrefixOf t && afterDataLayer (t.drop 9)

/-- The fixed ordered list of GTM signature matchers, one per entry of
`gtm_patterns` in app.py lines 14-25. -/
def gtm_patterns : List (List Char → Bool) :=
  [ litSearch gtmLit1,
    searchAt startsGtmId,
    litSearch gtmLit3,
    searchAt startsDataLayerInit,
    litSearch gtmLit5 ]

/-- The pattern loop of `find_gtm` (app.py lines 27-30): return true on the
first pattern that matches, false when none does. -/
def findGtmLoop : List (List Char → Bool) → List Char → Bool
  | [], _ => false
  | p :: ps, s => p s || findGtmLoop ps s

/-- Embeds `find_gtm(html_content)` (app.py lines 10-30). -/
def find_gtm (html_content : String) : Bool :=
  findGtmLoop gtm_patterns html_content.data

/-! ## Regex engine for the extractor patterns

`re.findall` needs match extents, and the phone pattern needs genuine
backtracking over its optional parts.  Each regex piece below is a
CPS matcher `List Char → (List Char → Option (List Char)) → Option (List Char)`
returning the remainder after the first acceptable parse, alternatives
tried in Python priority order (greedy: longer repetitions first,
optional parts present-first). -/

/-- Try the continuation after consuming `i` characters, for `i` from the
given bound down to `lo` (the backtracking order of a greedy repetition). -/
def tryCounts (k : List Char → Option (List Char)) (s : List Char) (lo : Nat) :
    Nat → Option (List Char)
  | 0 => if lo == 0 then k s else none
  | i + 1 =>
    if i + 1 < lo then none
    else
      match k (s.drop (i + 1)) with
      | some r => some r
      | none => tryCounts k s lo i

/-- Matcher of a single mandatory class character. -/
def mone (p : Char → Bool) (s : List Char) (k : List Char → Option (List Char)) :
    Option (List Char) :=
  match s with
  | c :: r => if p c then k r else none
  | [] => none

/-- Greedy matcher of `class{lo,hi}`: repetition counts tried from the
largest feasible one down to `lo`. -/
def mcls (p : Char → Bool) (lo hi : Nat) (s : List Char)
    (k : List Char → Option (List Char)) : Option (List Char) :=
  tryCounts k s lo (min hi (s.takeWhile p).length)

/-- Greedy matcher of `class+`. -/
def mplus (p : Char → Bool) (s : List Char) (k : List Char → Option (List Char)) :
    Option (List Char) :=
  tryCounts k s 1 (s.takeWhile p).length

/-- Greedy matcher of `class?`. -/
def mopt (p : Char → Bool) (s : List Char) (k : List Char → Option (List Char)) :
    Option (List Char) :=
  mcls p 0 1 s k

/-- Greedy matcher of an optional group `(?:...)?`: the group body is tried
first, the empty alternative second. -/
def moptGroup
    (g : List Char → (List Char → Option (List Char)) → Option (List Char))
    (s : List Char) (k : List Char → Option (List Char)) : Option (List Char) :=
  match g s k with
  | some r => some r
  | none => k s

/-- Start-anchored matcher of the email pattern
`[\w\.-]+@[\w\.-]+\.\w+` (app.py line 37), transcribed token by token. -/
def emailAt (s : List Char) : Option (List Char) :=
  mplus emailCls s (fun s1 =>
    mone (fun c => c == '@') s1 (fun s2 =>
      mplus emailCls s2 (fun s3 =>
        mone (fun c => c == '.') s3 (fun s4 =>
          mplus isWordChar s4 some))))

/-- Start-anchored matcher of the phone pattern
`(?:\+\d{1,3}[-.\s]?)?\(?\d{3}\)?[-.\s]?\d{3}[-.\s]?\d{4}`
(app.py line 41), transcribed token by token. -/
def phoneAt (s : List Char) : Option (List Char) :=
  moptGroup
    (fun t k =>
      mone (fun c => c == '+') t (fun t1 =>
        mcls Char.isDigit 1 3 t1 (fun t2 =>
          mopt sepCls t2 k)))
    s (fun s1 =>
      mopt (fun c => c == '(') s1 (fun s2 =>
        mcls Char.isDigit 3 3 s2 (fun s3 =>
          mopt (fun c => c == ')') s3 (fun s4 =>
            mopt sepCls s4 (fun s5 =>
              mcls Char.isDigit 3 3 s5 (fun s6 =>
                mopt sepCls s6 (fun s7 =>
                  mcls Char.isDigit 4 4 s7 some)))))))

/-- Position scan of `re.search` for a start-anchored `Option` matcher:
returns the matched characters and the remainder after the match at the
leftmost matching position. -/
def reSearch (m : List Char → Option (List Char)) :
    List Char → Option (List Char × List Char)
  | [] =>
    match m [] with
    | some rem => some ([], rem)
    | none => none
  | c :: r =>
    match m (c :: r) with
    | some rem => some ((c :: r).take ((c :: r).length - rem.length), rem)
    | none => reSearch m r

/-- Iterated non-overlapping search of `re.findall`: after a match the scan
resumes at the match end.  The fuel argument only bounds the recursion;
`input length + 1` is always enough because every round either stops or
drops at least one character (our two patterns cannot match the empty
string, and the empty-match guard advances by one as `re` does). -/
def findallAux (m : List Char → Option (List Char)) :
    Nat → List Char → List String
  | 0, _ => []
  | fuel + 1, s =>
    match reSearch m s with
    | none => []
    | some (mt, rem) =>
      String.mk mt :: findallAux m fuel (if rem.length < s.length then rem else rem.drop 1)

/-- Embeds `re.findall(pat, text)` for a start-anchored matcher of `pat`. -/
def re_findall (m : List Char → Option (List Char)) (text : String) : List String :=
  findallAux m (text.data.length + 1) text.data

/-! ## Contact extractor (`extract_contact_info`, app.py lines 32-57) -/

/-- The parsed page handed to the extractor: raw html (used by `find_gtm`),
the visible text `soup.get_text()` and the hrefs of the `<a href=...>`
elements found by `soup.find_all('a', href=True)`, in document order. -/
structure PageDoc where
  html : String
  text : String
  anchorHrefs : List String

/-- The record returned by `extract_contact_info` (app.py lines 53-57). -/
structure ContactInfo where
  emails : List String
  phones : List String
  contact_links : List String

/-- Scheme characters accepted by `urllib.parse.urlparse`:
letters, digits, `+`, `-`, `.`. -/
def isSchemeChar (c : Char) : Bool :=
  c.isAlphanum || c == '+' || c == '-' || c == '.'

/-- Scheme splitting of `urllib.parse.urlparse`: when the text before the
first `:` is a nonempty valid scheme starting with a letter, return it
together with the text after the `:`. -/
def splitScheme (s : List Char) : Option (List Char × List Char) :=
  let pre := s.takeWhile (fun c => !(c == ':'))
  match s.drop pre.length with
  | ':' :: rest =>
    match pre with
    | [] => none
    | c0 :: _ => if c0.isAlpha && pre.all isSchemeChar then some (pre, rest) else none
  | _ => none

/-- Embeds `urllib.parse.urlparse(url).netloc`: the text between `//` and
the next `/`, `?` or `#`, empty when the url has no `//` part. -/
def netlocOf (url : String) : String :=
  let rest :=
    match splitScheme url.data with
    | some (_, r) => r
    | none => url.data
  match rest with
  | '/' :: '/' :: r => ⟨r.takeWhile (fun c => !(c == '/' || c == '?' || c == '#'))⟩
  | _ => ""

/-- The candidate test of app.py line 48:
`'contact' in href.lower() or 'about' in href.lower()`
(substring containment, decided by the literal scan `litSearch`). -/
def hrefIsCandidate (href : String) : Bool :=
  litSearch "contact".data (strLower href).data ||
    litSearch "about".data (strLower href).data

/-- The href rewrite of app.py lines 49-50: a candidate href beginning with
`/` becomes `f"https://{urlparse(url).netloc}{href}"`, any other candidate
href is kept as-is. -/
def rewriteHref (url href : String) : String :=
  if strStartsWith href "/" then "https://" ++ netlocOf url ++ href else href

/-- The anchor loop of app.py lines 46-51: collect every candidate href,
rewritten when it begins with `/`, in document order. -/
def contactLinksLoop : List String → String → List String
  | [], _ => []
  | href :: rest, url =>
    if hrefIsCandidate href then rewriteHref url href :: contactLinksLoop rest url
    else contactLinksLoop rest url

/-- Embeds `extract_contact_info(soup, url)` (app.py lines 32-57).
Python's `list(set(...))` deduplication (arbitrary order) is modelled by
`List.dedup`; the claims about these fields are membership claims. -/
def extract_contact_info (soup : PageDoc) (url : String) : ContactInfo :=
  { emails := (re_findall emailAt soup.text).dedup
    phones := (re_findall phoneAt soup.text).dedup
    contact_links := (contactLinksLoop soup.anchorHrefs url).dedup }

/-- The empty contact record used when the extractor is skipped
(app.py lines 83 and 102). -/
def noContact : ContactInfo :=
  { emails := [], phones := [], contact_links := [] }

/-! ## Scan orchestrator (`check_gtm`, app.py lines 59-132) -/

/-- One per-URL result record, the dict returned by `check_gtm`. -/
structure ScanResult where
  url : String
  gtm_found : Bool
  emails : List String
  phones : List String
  contact_links : List String
  status : String
  http_status : Option Nat

/-- The response object of a completed `requests.get`: the parsed page, the
final status code, the reason phrase and the final url (the latter two only
feed the `HTTPError` message). -/
structure HttpResponse where
  doc : PageDoc
  status_code : Nat
  reason : String
  respUrl : String

/-- Outcome of one `requests.get` call: a response, a raised
`requests.exceptions.SSLError`, or any other raised exception — each
exception modelled by its `str(e)` message. -/
inductive GetResult where
  | success : HttpResponse → GetResult
  | sslError : String → GetResult
  | failure : String → GetResult

/-- Tail of the `HTTPError` message after the numeric status code. -/
def httpErrorTail (resp : HttpResponse) : String :=
  (if resp.status_code < 500 then " Client Error: " else " Server Error: ") ++
    resp.reason ++ " for url: " ++ resp.respUrl

/-- Message of the `requests.exceptions.HTTPError` raised by
`response.raise_for_status()` on a 4xx/5xx code: the numeric status code
followed by the reason phrase and the url. -/
def httpErrorMsg (resp : HttpResponse) : String :=
  toString resp.status_code ++ httpErrorTail resp

/-- The scheme injection of app.py lines 62-64:
`if not url.startswith(('http://', 'https://')): url = 'https://' + url`. -/
def normalize_url (url : String) : String :=
  if strStartsWith url "http://" || strStartsWith url "https://" then url
  else "https://" ++ url

/-- A failure record of `check_gtm` (app.py lines 113-122 and 123-132):
`gtm_found=False`, empty collections, `http_status=None`. -/
def errResult (url status : String) : ScanResult :=
  { url := url, gtm_found := false, emails := [], phones := [],
    contact_links := [], status := status, http_status := none }

/-- The primary success branch of `check_gtm` (app.py lines 73-93):
`raise_for_status()` raises on a 4xx/5xx final code (handled by the outer
`except` of lines 123-132); otherwise the detector runs, the extractor runs
only when GTM was found, and the status is `Success` / `No GTM found`. -/
def primaryBody (url : String) (resp : HttpResponse) : ScanResult :=
  if 400 ≤ resp.status_code ∧ resp.status_code < 600 then
    errResult url ("Error: " ++ httpErrorMsg resp)
  else
    let gtm := find_gtm resp.doc.html
    let ci := if gtm then extract_contact_info resp.doc url else noContact
    { url := url, gtm_found := gtm, emails := ci.emails, phones := ci.phones,
      contact_links := ci.contact_links,
      status := if gtm then "Success" else "No GTM found",
      http_status := some resp.status_code }

/-- The SSL fallback branch of `check_gtm` (app.py lines 95-122): the retry
runs with verification disabled and — unlike the primary branch — performs
no `raise_for_status()` check; on a response it always reports
`Success (SSL verification disabled)`; any exception of the retry yields an
`SSL Error:` failure record. -/
def fallbackBody (url : String) (second : GetResult) : ScanResult :=
  match second with
  | .success resp =>
    let gtm := find_gtm resp.doc.html
    let ci := if gtm then extract_contact_info resp.doc url else noContact
    { url := url, gtm_found := gtm, emails := ci.emails, phones := ci.phones,
      contact_links := ci.contact_links,
      status := "Success (SSL verification disabled)",
      http_status := some resp.status_code }
  | .sslError msg => errResult url ("SSL Error: " ++ msg)
  | .failure msg => errResult url ("SSL Error: " ++ msg)

/-- Dispatch of `check_gtm` on the outcome of the first GET (app.py lines
73, 95, 123): a response goes to the primary branch, a raised `SSLError`
to the fallback branch (which performs the second GET), any other raised
exception to the `Error:` failure record. -/
def scanStep (url : String) (first second : GetResult) : ScanResult :=
  match first with
  | .success resp => primaryBody url resp
  | .sslError _ => fallbackBody url second
  | .failure msg => errResult url ("Error: " ++ msg)

/-- Embeds `check_gtm(url)` (app.py lines 59-132) against the network
environment `net`, where `net true` is the outcome of the verified GET of
line 73 and `net false` the outcome of the `verify=False` GET of line 98
(consulted only in the SSL fallback branch). -/
def check_gtm (net : Bool → GetResult) (url : String) : ScanResult :=
  scanStep (normalize_url url) (net true) (net false)

/-! ## Batch runner (`main`, app.py lines 183-196) -/

/-- Embeds the collection loop of `main` (app.py lines 183-196): one future
is submitted per input URL (`executor.submit` returns a fresh future per
call, so the `future_to_url` dict keeps duplicates), and
`as_completed` yields every future exactly once, in an arbitrary completion
order — modelled by running `check_gtm` over a permutation of the input
list. -/
def run_batch (net : Bool → GetResult) (completionOrder : List String) :
    List ScanResult :=
  completionOrder.map (check_gtm net)

/-! ## Concrete network environments used by witnesses and counterexamples -/

/-- A page with no parseable content. -/
def emptyDoc : PageDoc := { html := "", text := "", anchorHrefs := [] }

/-- Environment of a connection failure on every GET. -/
def cNetErr : Bool → GetResult :=
  fun _ => .failure "connection timed out"

/-- Environment of a clean 200 response without GTM content. -/
def cNetOk200 : Bool → GetResult :=
  fun _ =>
    .success { doc := emptyDoc, status_code := 200, reason := "OK",
               respUrl := "https://example.com/" }

/-- The 404 response record of `cNet404`. -/
def resp404 : HttpResponse :=
  { doc := emptyDoc, status_code := 404, reason := "Not Found",
    respUrl := "https://example.com/missing" }

/-- Environment of a 404 response on every GET. -/
def cNet404 : Bool → GetResult :=
  fun _ => .success resp404

/-- Environment where the verified GET raises `SSLError` and the
`verify=False` retry returns a 404 response. -/
def cNetSsl404 : Bool → GetResult :=
  fun verify => if verify then .sslError "certificate verify failed" else .success resp404

/-- Environment where the verified GET raises `SSLError` and the
`verify=False` retry returns a 200 response without GTM content. -/
def cNetSslOk : Bool → GetResult :=
  fun verify =>
    if verify then .sslError "certificate verify failed"
    else
      .success { doc := { html := "<html></html>", text := "", anchorHrefs := [] },
                 status_code := 200, reason := "OK", respUrl := "https://nogtm.com/" }

/-! ## Specification-side predicates -/

/-- The fetch/parse pipeline of `check_gtm` fails unrecoverably for the
given pair of GET outcomes: the first GET raises a non-SSL exception, or it
raises `SSLError` and the retry also raises, or it returns a 4xx/5xx
response (so `raise_for_status()` raises). -/
def failOutcome : GetResult → GetResult → Prop
  | .failure _, _ => True
  | .sslError _, .success _ => False
  | .sslError _, .sslError _ => True
  | .sslError _, .failure _ => True
  | .success r, _ => 400 ≤ r.status_code ∧ r.status_code < 600

/-- The pipeline of `check_gtm` fails unrecoverably under the environment. -/
def scanFails (net : Bool → GetResult) : Prop :=
  failOutcome (net true) (net false)

/-- The three status strings of a `check_gtm` run whose fetch pipeline did
not fail (app.py lines 91 and 110). -/
def successStatuses : List String :=
  ["Success", "No GTM found", "Success (SSL verification disabled)"]

/-- The content contains the GTM loader script URL signature. -/
def ContainsGtmLoader (content : String) : Prop :=
  gtmLit1 <:+: content.data

/-- The content contains a `GTM-` container-id token: `GTM-` followed by a
character of `[A-Z0-9]`. -/
def ContainsGtmContainerId (content : String) : Prop :=
  ∃ c : Char, (c.isUpper || c.isDigit) = true ∧ ("GTM-".data ++ [c]) <:+: content.data

/-- The content contains a `dataLayer` initialization statement:
`dataLayer`, `=`, `[`, `]` separated by arbitrary whitespace runs. -/
def ContainsDataLayerInit (content : String) : Prop :=
  ∃ ws1 ws2 ws3 : List Char,
    (∀ c ∈ ws1, isPySpace c = true) ∧ (∀ c ∈ ws2, isPySpace c = true) ∧
      (∀ c ∈ ws3, isPySpace c = true) ∧
      ("dataLayer".data ++ (ws1 ++ '=' :: (ws2 ++ '[' :: (ws3 ++ [']'])))) <:+: content.data

/-- The content contains the `noscript` GTM iframe URL signature. -/
def ContainsNoscriptGtm (content : String) : Prop :=
  gtmLit5 <:+: content.data

/-- The input URL carries a scheme in the sense of `urllib.parse.urlparse`. -/
def urlHasScheme (url : String) : Bool :=
  (splitScheme url.data).isSome

/-- The timeout argument passed to both `requests.get` calls of `check_gtm`
(app.py lines 73 and 98): the literal 15.  `check_gtm` takes no timeout
parameter. -/
def check_gtm_fetch_timeout : Nat := 15

/-- The per-fetch timeout actually used when the externally configured
`timeout_seconds` is `t`: `main` (app.py line 174) reads the slider into a
local variable but never passes it to `check_gtm`, so the value used is the
hardcoded one, independent of `t`. -/
def used_fetch_timeout (_timeout_seconds : Nat) : Nat :=
  check_gtm_fetch_timeout

/-! ## Helper lemmas -/

/-- Boolean prefix test agrees with the prefix relation on character lists. -/
theorem isPrefixOfChars (l₁ l₂ : List Char) : l₁.isPrefixOf l₂ = true ↔ l₁ <+: l₂ := by
  simp

/-- `searchAt p` succeeds exactly on inputs with a suffix accepted by `p`:
the position scan of `re.search`. -/
theorem searchAt_iff (p : List Char → Bool) (s : List Char) :
    searchAt p s = true ↔ ∃ t, t <:+ s ∧ p t = true := by
  induction s with
  | nil =>
    simp [searchAt]
  | cons c r ih =>
    simp only [searchAt, Bool.or_eq_true, ih]
    constructor
    · rintro (h | ⟨t, hts, hpt⟩)
      · exact ⟨c :: r, List.suffix_refl _, h⟩
      · exact ⟨t, hts.trans (List.suffix_cons c r), hpt⟩
    · rintro ⟨t, hts, hpt⟩
      rcases List.suffix_cons_iff.mp hts with h | h
      · exact Or.inl (h ▸ hpt)
      · exact Or.inr ⟨t, h, hpt⟩

/-- A pattern occurs as an infix exactly when some suffix starts with it. -/
theorem search_pat_iff (u s : List Char) :
    (∃ t, t <:+ s ∧ ∃ rest, t = u ++ rest) ↔ u <:+: s := by
  constructor
  · rintro ⟨t, hts, rest, rfl⟩
    exact List.infix_iff_prefix_suffix.mpr ⟨u ++ rest, List.prefix_append u rest, hts⟩
  · intro h
    obtain ⟨t, hpre, hsuf⟩ := List.infix_iff_prefix_suffix.mp h
    obtain ⟨rest, rfl⟩ := hpre
    exact ⟨u ++ rest, hsuf, rest, rfl⟩

/-- `litSearch` decides infix containment of a literal pattern. -/
theorem litSearch_iff (pat s : List Char) : litSearch pat s = true ↔ pat <:+: s := by
  unfold litSearch
  rw [searchAt_iff]
  constructor
  · rintro ⟨t, hts, hp⟩
    obtain ⟨rest, rfl⟩ := (isPrefixOfChars pat t).mp hp
    exact List.infix_iff_prefix_suffix.mpr ⟨pat ++ rest, List.prefix_append pat rest, hts⟩
  · intro h
    obtain ⟨t, hpre, hsuf⟩ := List.infix_iff_prefix_suffix.mp h
    exact ⟨t, hsuf, (isPrefixOfChars pat t).mpr hpre⟩

/-- Characterization of the start-anchored `GTM-[A-Z0-9]+` matcher. -/
theorem startsGtmId_iff (t : List Char) :
    startsGtmId t = true ↔
      ∃ c rest, (c.isUpper || c.isDigit) = true ∧ t = "GTM-".data ++ c :: rest := by
  unfold startsGtmId
  rw [Bool.and_eq_true, isPrefixOfChars]
  constructor
  · rintro ⟨⟨u, rfl⟩, hfu⟩
    rw [List.drop_left' (by rfl)] at hfu
    cases u with
    | nil => simp [firstUpperDigit] at hfu
    | cons c rest => exact ⟨c, rest, hfu, rfl⟩
  · rintro ⟨c, rest, hc, rfl⟩
    refine ⟨⟨c :: rest, rfl⟩, ?_⟩
    rw [List.drop_left' (by rfl)]
    exact hc

/-- `re.search` of pattern 2 succeeds exactly on contents containing a
`GTM-` container-id token. -/
theorem gtmId_search_iff (s : List Char) :
    searchAt startsGtmId s = true ↔
      ∃ c : Char, (c.isUpper || c.isDigit) = true ∧ ("GTM-".data ++ [c]) <:+: s := by
  rw [searchAt_iff]
  constructor
  · rintro ⟨t, hts, hp⟩
    obtain ⟨c, rest, hc, rfl⟩ := (startsGtmId_iff t).mp hp
    refine ⟨c, hc, ?_⟩
    rw [← search_pat_iff]
    exact ⟨_, hts, rest, by simp⟩
  · rintro ⟨c, hc, hinf⟩
    obtain ⟨t, hts, rest, rfl⟩ := (search_pat_iff _ s).mpr hinf
    refine ⟨_, hts, ?_⟩
    rw [startsGtmId_iff]
    exact ⟨c, rest, hc, by simp⟩

/-- Every character kept by `takeWhile isPySpace` is whitespace. -/
theorem allSpace_takeWhile (u : List Char) :
    ∀ c ∈ u.takeWhile isPySpace, isPySpace c = true :=
  fun _ hc => List.mem_takeWhile_imp hc

/-- Dropping whitespace from a whitespace run followed by a non-whitespace
character lands exactly on that character. -/
theorem dropWhile_spaces (ws : List Char) (a : Char) (v : List Char)
    (hws : ∀ c ∈ ws, isPySpace c = true) (ha : isPySpace a = false) :
    (ws ++ a :: v).dropWhile isPySpace = a :: v := by
  induction ws with
  | nil => simp [List.dropWhile_cons, ha]
  | cons w ws ih =>
    have hw : isPySpace w = true := hws w (by simp)
    simp [List.dropWhile_cons, hw, ih fun c hc => hws c (by simp [hc])]

/-- Characterization of the `\s*c` step matcher for a non-whitespace `c`. -/
theorem expectChar_some_iff (a : Char) (u r : List Char) (ha : isPySpace a = false) :
    expectChar a u = some r ↔
      ∃ ws, (∀ c ∈ ws, isPySpace c = true) ∧ u = ws ++ a :: r := by
  constructor
  · intro h
    unfold expectChar at h
    cases h1 : u.dropWhile isPySpace with
    | nil => rw [h1] at h; simp at h
    | cons c rr =>
      rw [h1] at h
      by_cases hca : c = a
      · subst hca
        simp only [beq_self_eq_true, if_true, Option.some.injEq] at h
        subst h
        refine ⟨u.takeWhile isPySpace, allSpace_takeWhile u, ?_⟩
        rw [← h1, List.takeWhile_append_dropWhile]
      · simp [hca] at h
  · rintro ⟨ws, hws, rfl⟩
    unfold expectChar
    rw [dropWhile_spaces ws a r hws ha]
    simp

/-- Characterization of the matcher of `\s*=\s*\[\s*\]`. -/
theorem afterDataLayer_iff (u : List Char) :
    afterDataLayer u = true ↔
      ∃ ws1 ws2 ws3 rest,
        (∀ c ∈ ws1, isPySpace c = true) ∧ (∀ c ∈ ws2, isPySpace c = true) ∧
          (∀ c ∈ ws3, isPySpace c = true) ∧
          u = ws1 ++ '=' :: (ws2 ++ '[' :: (ws3 ++ ']' :: rest)) := by
  constructor
  · intro h
    unfold afterDataLayer at h
    rcases h1 : expectChar '=' u with _ | r2
    · rw [h1] at h; simp at h
    rw [h1] at h
    simp only [Option.some_bind] at h
    rcases h2 : expectChar '[' r2 with _ | r3
    · rw [h2] at h; simp at h
    rw [h2] at h
    simp only [Option.some_bind] at h
    rcases h3 : expectChar ']' r3 with _ | r4
    · rw [h3] at h; simp at h
    obtain ⟨ws3, hw3, rfl⟩ := (expectChar_some_iff ']' r3 r4 (by decide)).mp h3
    obtain ⟨ws2, hw2, rfl⟩ := (expectChar_some_iff '[' r2 _ (by decide)).mp h2
    obtain ⟨ws1, hw1, rfl⟩ := (expectChar_some_iff '=' u _ (by decide)).mp h1
    exact ⟨ws1, ws2, ws3, r4, hw1, hw2, hw3, rfl⟩
  · rintro ⟨ws1, ws2, ws3, rest, hw1, hw2, hw3, rfl⟩
    unfold afterDataLayer
    rw [(expectChar_some_iff '=' _ _ (by decide)).mpr ⟨ws1, hw1, rfl⟩]
    simp only [Option.some_bind]
    rw [(expectChar_some_iff '[' _ _ (by decide)).mpr ⟨ws2, hw2, rfl⟩]
    simp only [Option.some_bind]
    rw [(expectChar_some_iff ']' _ _ (by decide)).mpr ⟨ws3, hw3, rfl⟩]
    rfl

/-- Characterization of the start-anchored `dataLayer\s*=\s*\[\s*\]`
matcher. -/
theorem startsDataLayerInit_iff (t : List Char) :
    startsDataLayerInit t = true ↔
      ∃ ws1 ws2 ws3 rest,
        (∀ c ∈ ws1, isPySpace c = true) ∧ (∀ c ∈ ws2, isPySpace c = true) ∧
          (∀ c ∈ ws3, isPySpace c = true) ∧
          t = "dataLayer".data ++ (ws1 ++ '=' :: (ws2 ++ '[' :: (ws3 ++ ']' :: rest))) := by
  unfold startsDataLayerInit
  rw [Bool.and_eq_true, isPrefixOfChars]
  constructor
  · rintro ⟨⟨u, rfl⟩, had⟩
    rw [List.drop_left' (by rfl)] at had
    obtain ⟨ws1, ws2, ws3, rest, h1, h2, h3, rfl⟩ := (afterDataLayer_iff u).mp had
    exact ⟨ws1, ws2, ws3, rest, h1, h2, h3, rfl⟩
  · rintro ⟨ws1, ws2, ws3, rest, h1, h2, h3, rfl⟩
    refine ⟨⟨_, rfl⟩, ?_⟩
    rw [List.drop_left' (by rfl)]
    exact (afterDataLayer_iff _).mpr ⟨ws1, ws2, ws3, rest, h1, h2, h3, rfl⟩

/-- `re.search` of pattern 4 succeeds exactly on contents containing a
`dataLayer` initialization. -/
theorem dataLayer_search_iff (s : List Char) :
    searchAt startsDataLayerInit s = true ↔
      ∃ ws1 ws2 ws3 : List Char,
        (∀ c ∈ ws1, isPySpace c = true) ∧ (∀ c ∈ ws2, isPySpace c = true) ∧
          (∀ c ∈ ws3, isPySpace c = true) ∧
          ("dataLayer".data ++ (ws1 ++ '=' :: (ws2 ++ '[' :: (ws3 ++ [']'])))) <:+: s := by
  rw [searchAt_iff]
  constructor
  · rintro ⟨t, hts, hp⟩
    obtain ⟨ws1, ws2, ws3, rest, h1, h2, h3, rfl⟩ := (startsDataLayerInit_iff t).mp hp
    refine ⟨ws1, ws2, ws3, h1, h2, h3, ?_⟩
    rw [← search_pat_iff]
    exact ⟨_, hts, rest, by simp⟩
  · rintro ⟨ws1, ws2, ws3, h1, h2, h3, hinf⟩
    obtain ⟨t, hts, rest, rfl⟩ := (search_pat_iff _ s).mpr hinf
    refine ⟨_, hts, ?_⟩
    rw [startsDataLayerInit_iff]
    exact ⟨ws1, ws2, ws3, rest, h1, h2, h3, by simp⟩

/-- The pattern loop of `find_gtm` agrees with the disjunction of the four
GTM signature predicates (pattern 3 is a special case of pattern 1, whose
literal it contains). -/
theorem find_gtm_iff (content : String) :
    find_gtm content = true ↔
      ContainsGtmLoader content ∨ ContainsGtmContainerId content ∨
        ContainsDataLayerInit content ∨ ContainsNoscriptGtm content := by
  have h13 : gtmLit1 <:+: gtmLit3 := ⟨"https://www.".data, "?id=".data, by decide⟩
  simp only [find_gtm, findGtmLoop, gtm_patterns, Bool.or_eq_true, Bool.false_eq_true,
    or_false]
  rw [litSearch_iff, gtmId_search_iff, litSearch_iff, dataLayer_search_iff, litSearch_iff]
  unfold ContainsGtmLoader ContainsGtmContainerId ContainsDataLayerInit ContainsNoscriptGtm
  constructor
  · rintro (h | h | h | h | h)
    · exact Or.inl h
    · exact Or.inr (Or.inl h)
    · exact Or.inl (h13.trans h)
    · exact Or.inr (Or.inr (Or.inl h))
    · exact Or.inr (Or.inr (Or.inr h))
  · rintro (h | h | h | h)
    · exact Or.inl h
    · exact Or.inr (Or.inl h)
    · exact Or.inr (Or.inr (Or.inr (Or.inl h)))
    · exact Or.inr (Or.inr (Or.inr (Or.inr h)))

/-- A string starts with any of its appended-on prefixes. -/
theorem strStartsWith_append (pre m : String) : strStartsWith (pre ++ m) pre = true := by
  unfold strStartsWith
  rw [String.data_append]
  exact (isPrefixOfChars _ _).mpr (List.prefix_append _ _)

/-- A status of the form `Error: ...` differs from any string that does not
start with `E`. -/
theorem err_status_ne (msg s : String) (hs : s.data.head? ≠ some 'E') :
    "Error: " ++ msg ≠ s := by
  intro h
  apply hs
  rw [← h, String.data_append]
  rfl

/-- Every branch of the orchestrator records the normalized URL it was
given in the result's `url` field. -/
theorem scanStep_url (u : String) (f snd : GetResult) : (scanStep u f snd).url = u := by
  cases f with
  | success resp =>
    show (primaryBody u resp).url = u
    unfold primaryBody
    split
    · rfl
    · rfl
  | sslError m =>
    cases snd <;> rfl
  | failure m => rfl

/-- A candidate anchor href contributes its rewrite to the collected link
list. -/
theorem mem_contactLinksLoop (url href : String) (anchors : List String)
    (hc : hrefIsCandidate href = true) (hm : href ∈ anchors) :
    rewriteHref url href ∈ contactLinksLoop anchors url := by
  induction anchors with
  | nil => cases hm
  | cons a rest ih =>
    rcases List.mem_cons.mp hm with rfl | hm'
    · simp [contactLinksLoop, hc]
    · by_cases ha : hrefIsCandidate a = true <;>
        simp [contactLinksLoop, ha, ih hm']

/-! ## Claim theorems -/

/-- C1: `check_gtm` is total (the embedding is a total function, mirroring
the exception handlers of app.py lines 95-132 that convert every raised
exception into a returned record), and whenever the fetch/parse pipeline
fails unrecoverably the returned record has `gtm_found=false`, empty
emails/phones/contact_links, `http_status=None`, and a status string
prefixed `Error:` or `SSL Error:`. -/
theorem c1_failure_result_shape (net : Bool → GetResult) (url : String)
    (hf : scanFails net) :
    (check_gtm net url).gtm_found = false ∧
    (check_gtm net url).emails = [] ∧
    (check_gtm net url).phones = [] ∧
    (check_gtm net url).contact_links = [] ∧
    (check_gtm net url).http_status = none ∧
    (strStartsWith (check_gtm net url).status "Error: " = true ∨
      strStartsWith (check_gtm net url).status "SSL Error: " = true) := by
  unfold scanFails at hf
  unfold check_gtm
  rcases h1 : net true with resp | msg | msg
  · rw [h1] at hf
    simp only [failOutcome] at hf
    have he : scanStep (normalize_url url) (GetResult.success resp) (net false) =
        errResult (normalize_url url) ("Error: " ++ httpErrorMsg resp) := by
      show primaryBody _ _ = _
      unfold primaryBody
      rw [if_pos hf]
    rw [he]
    exact ⟨rfl, rfl, rfl, rfl, rfl, Or.inl (strStartsWith_append "Error: " _)⟩
  · rcases h2 : net false with resp2 | m2 | m2
    · rw [h1, h2] at hf
      simp only [failOutcome] at hf
    · have he : scanStep (normalize_url url) (GetResult.sslError msg) (GetResult.sslError m2) =
          errResult (normalize_url url) ("SSL Error: " ++ m2) := rfl
      rw [he]
      exact ⟨rfl, rfl, rfl, rfl, rfl, Or.inr (strStartsWith_append "SSL Error: " _)⟩
    · have he : scanStep (normalize_url url) (GetResult.sslError msg) (GetResult.failure m2) =
          errResult (normalize_url url) ("SSL Error: " ++ m2) := rfl
      rw [he]
      exact ⟨rfl, rfl, rfl, rfl, rfl, Or.inr (strStartsWith_append "SSL Error: " _)⟩
  · have he : scanStep (normalize_url url) (GetResult.failure msg) (net false) =
        errResult (normalize_url url) ("Error: " ++ msg) := rfl
    rw [he]
    exact ⟨rfl, rfl, rfl, rfl, rfl, Or.inl (strStartsWith_append "Error: " _)⟩

/-- C1 witness: the failure shape at a concrete environment where every GET
raises a connection error. -/
theorem c1_failure_result_shape_witness :
    scanFails cNetErr ∧
    ((check_gtm cNetErr "example.com").gtm_found = false ∧
      (check_gtm cNetErr "example.com").emails = [] ∧
      (check_gtm cNetErr "example.com").phones = [] ∧
      (check_gtm cNetErr "example.com").contact_links = [] ∧
      (check_gtm cNetErr "example.com").http_status = none ∧
      (strStartsWith (check_gtm cNetErr "example.com").status "Error: " = true ∨
        strStartsWith (check_gtm cNetErr "example.com").status "SSL Error: " = true)) :=
  ⟨trivial, c1_failure_result_shape cNetErr "example.com" trivial⟩

/-- C3: one scan result per input URL: for every completion order (any
permutation of the submitted URL list, duplicates included), the collected
result list has exactly the input list's length. -/
theorem c3_one_result_per_url (net : Bool → GetResult) (urls order : List String)
    (hperm : order.Perm urls) :
    (run_batch net order).length = urls.length := by
  rw [run_batch, List.length_map]
  exact hperm.length_eq

/-- C3 witness: a batch with a duplicated URL, consumed in an order
different from submission order. -/
theorem c3_one_result_per_url_witness :
    (run_batch cNetErr ["b.com", "a.com", "a.com"]).length =
      (["a.com", "a.com", "b.com"] : List String).length :=
  c3_one_result_per_url cNetErr ["a.com", "a.com", "b.com"] ["b.com", "a.com", "a.com"]
    (by decide)

/-- C4: `find_gtm` returns true exactly when the content contains one of
the GTM signatures (loader script URL, `GTM-` container-id token,
`dataLayer` initialization, noscript iframe URL), and returns false on the
empty string. -/
theorem c4_detector_characterization :
    (∀ content : String,
      find_gtm content = true ↔
        ContainsGtmLoader content ∨ ContainsGtmContainerId content ∨
          ContainsDataLayerInit content ∨ ContainsNoscriptGtm content) ∧
    find_gtm "" = false :=
  ⟨find_gtm_iff, by decide⟩

/-- C7: the per-fetch timeout used by `check_gtm` is the hardcoded 15 for
every externally configured `timeout_seconds`; in particular the configured
value 30 (inside the slider range [5,30]) is not the value used. -/
theorem c7_configured_timeout_unused :
    (∀ t : Nat, used_fetch_timeout t = 15) ∧
      used_fetch_timeout 30 = 15 ∧ used_fetch_timeout 30 ≠ 30 :=
  ⟨fun _ => rfl, rfl, by decide⟩

/-- C10: a candidate anchor href (containing `contact` or `about`
case-insensitively) that does not begin with `/` is kept in
`contact_links` exactly as it appears in the page, so `contact_links` may
contain non-absolute URL strings. -/
theorem c10_nonroot_href_kept (url href : String) (anchors : List String)
    (html text : String) (hc : hrefIsCandidate href = true)
    (hs : strStartsWith href "/" = false) (hm : href ∈ anchors) :
    href ∈ (extract_contact_info
      { html := html, text := text, anchorHrefs := anchors } url).contact_links := by
  have h := mem_contactLinksLoop url href anchors hc hm
  unfold rewriteHref at h
  rw [if_neg (by simp [hs])] at h
  simp only [extract_contact_info, List.mem_dedup]
  exact h

/-- C10 witness: the relative href `contact.html` survives unchanged. -/
theorem c10_nonroot_href_kept_witness :
    "contact.html" ∈ (extract_contact_info
      { html := "", text := "", anchorHrefs := ["contact.html"] }
      "https://example.com").contact_links :=
  c10_nonroot_href_kept "https://example.com" "contact.html" ["contact.html"] "" ""
    (by decide) (by decide) (by decide)

/-- C2 counterexample: the `verify=False` retry performs no
`raise_for_status()` (app.py line 98 and following), so a 404 final status
on the fallback fetch still yields a ScanResult with a success status. -/
theorem c2_fallback_skips_status_check :
    (check_gtm cNetSsl404 "example.com").status = "Success (SSL verification disabled)" ∧
    (check_gtm cNetSsl404 "example.com").status ∈ successStatuses ∧
    (check_gtm cNetSsl404 "example.com").http_status = some 404 :=
  ⟨by decide, by decide, by decide⟩

/-- C2 amended: only the primary (verified) fetch treats a non-success
final HTTP status as a raised HTTP error — `raise_for_status()` raises on
4xx/5xx — so no ScanResult with a success status is produced from a
4xx/5xx primary response; the SSL-fallback retry performs no such check. -/
theorem c2_primary_nonsuccess_is_error (net : Bool → GetResult) (url : String)
    (resp : HttpResponse) (h1 : net true = .success resp)
    (h4 : 400 ≤ resp.status_code) (h6 : resp.status_code < 600) :
    (check_gtm net url).status = "Error: " ++ httpErrorMsg resp ∧
      (check_gtm net url).status ∉ successStatuses := by
  have he : check_gtm net url =
      errResult (normalize_url url) ("Error: " ++ httpErrorMsg resp) := by
    unfold check_gtm
    rw [h1]
    show primaryBody _ _ = _
    unfold primaryBody
    rw [if_pos ⟨h4, h6⟩]
  rw [he]
  refine ⟨rfl, ?_⟩
  intro hmem
  simp only [successStatuses, List.mem_cons, List.not_mem_nil, or_false] at hmem
  rcases hmem with h | h | h
  · exact err_status_ne (httpErrorMsg resp) "Success" (by decide) h
  · exact err_status_ne (httpErrorMsg resp) "No GTM found" (by decide) h
  · exact err_status_ne (httpErrorMsg resp) "Success (SSL verification disabled)"
      (by decide) h

/-- C2 witness: the amended claim at a concrete 404 primary response. -/
theorem c2_primary_nonsuccess_is_error_witness :
    (check_gtm cNet404 "example.com").status = "Error: " ++ httpErrorMsg resp404 ∧
      (check_gtm cNet404 "example.com").status ∉ successStatuses :=
  c2_primary_nonsuccess_is_error cNet404 "example.com" resp404 rfl (by decide) (by decide)

/-- C5 counterexample: when the fetch succeeds only via the SSL-disabled
retry and the content matches no GTM pattern, the contact fields are empty
but the status is `Success (SSL verification disabled)`, not
`No GTM found` (app.py line 110 sets that status unconditionally). -/
theorem c5_fallback_status_not_no_gtm :
    (check_gtm cNetSslOk "nogtm.com").gtm_found = false ∧
    (check_gtm cNetSslOk "nogtm.com").emails = [] ∧
    (check_gtm cNetSslOk "nogtm.com").status ≠ "No GTM found" ∧
    (check_gtm cNetSslOk "nogtm.com").status = "Success (SSL verification disabled)" :=
  ⟨by decide, by decide, by decide, by decide⟩

/-- C5 amended: when the primary (verified) fetch succeeds with a
non-4xx/5xx status and the content matches no GTM pattern, the extractor is
skipped and the result has empty emails/phones/contact_links with status
`No GTM found`; when the fetch succeeds only via the SSL-disabled retry,
the contact fields are likewise empty and `gtm_found=false`, but the status
is `Success (SSL verification disabled)`. -/
theorem c5_no_gtm_behaviour :
    (∀ (net : Bool → GetResult) (url : String) (resp : HttpResponse),
      net true = .success resp →
      ¬ (400 ≤ resp.status_code ∧ resp.status_code < 600) →
      find_gtm resp.doc.html = false →
      (check_gtm net url).emails = [] ∧ (check_gtm net url).phones = [] ∧
        (check_gtm net url).contact_links = [] ∧
        (check_gtm net url).gtm_found = false ∧
        (check_gtm net url).status = "No GTM found") ∧
    (∀ (net : Bool → GetResult) (url msg : String) (resp : HttpResponse),
      net true = .sslError msg → net false = .success resp →
      find_gtm resp.doc.html = false →
      (check_gtm net url).emails = [] ∧ (check_gtm net url).phones = [] ∧
        (check_gtm net url).contact_links = [] ∧
        (check_gtm net url).gtm_found = false ∧
        (check_gtm net url).status = "Success (SSL verification disabled)") := by
  constructor
  · intro net url resp h1 hok hg
    have he : check_gtm net url =
        { url := normalize_url url, gtm_found := false, emails := [], phones := [],
          contact_links := [], status := "No GTM found",
          http_status := some resp.status_code } := by
      unfold check_gtm
      rw [h1]
      show primaryBody _ _ = _
      unfold primaryBody
      rw [if_neg hok]
      simp [hg, noContact]
    rw [he]
    exact ⟨rfl, rfl, rfl, rfl, rfl⟩
  · intro net url msg resp h1 h2 hg
    have he : check_gtm net url =
        { url := normalize_url url, gtm_found := false, emails := [], phones := [],
          contact_links := [], status := "Success (SSL verification disabled)",
          http_status := some resp.status_code } := by
      unfold check_gtm
      rw [h1, h2]
      show fallbackBody (normalize_url url) (GetResult.success resp) = _
      unfold fallbackBody
      simp [hg, noContact]
    rw [he]
    exact ⟨rfl, rfl, rfl, rfl, rfl⟩

/-- C5 witness: both parts of the amended claim at concrete environments
whose page content contains no GTM signature. -/
theorem c5_no_gtm_behaviour_witness :
    ((check_gtm cNetOk200 "example.com").emails = [] ∧
      (check_gtm cNetOk200 "example.com").phones = [] ∧
      (check_gtm cNetOk200 "example.com").contact_links = [] ∧
      (check_gtm cNetOk200 "example.com").gtm_found = false ∧
      (check_gtm cNetOk200 "example.com").status = "No GTM found") ∧
    ((check_gtm cNetSslOk "nogtm.com").emails = [] ∧
      (check_gtm cNetSslOk "nogtm.com").phones = [] ∧
      (check_gtm cNetSslOk "nogtm.com").contact_links = [] ∧
      (check_gtm cNetSslOk "nogtm.com").gtm_found = false ∧
      (check_gtm cNetSslOk "nogtm.com").status = "Success (SSL verification disabled)") :=
  ⟨c5_no_gtm_behaviour.1 cNetOk200 "example.com" _ rfl (by decide) (by decide),
    c5_no_gtm_behaviour.2 cNetSslOk "nogtm.com" "certificate verify failed" _ rfl rfl
      (by decide)⟩

/-- C6 counterexample: the rewrite of app.py line 50 hardcodes the scheme
`https`, so a source URL with scheme `http` yields an `https`-schemed
absolute link, not an `http`-schemed one as the claim states. -/
theorem c6_http_source_not_preserved :
    (extract_contact_info { html := "", text := "", anchorHrefs := ["/contact-us"] }
      "http://example.com/page").contact_links = ["https://example.com/contact-us"] ∧
    "http://example.com/contact-us" ∉
      (extract_contact_info { html := "", text := "", anchorHrefs := ["/contact-us"] }
        "http://example.com/page").contact_links :=
  ⟨by decide, by decide⟩

/-- C6 amended: a candidate anchor href beginning with `/` is rewritten to
an absolute URL using the fixed scheme `https` and the source URL's host;
in particular, for source `https://example.com/page` the href `/contact-us`
yields `https://example.com/contact-us`. -/
theorem c6_root_href_rewritten :
    (∀ (url href : String) (anchors : List String) (html text : String),
      hrefIsCandidate href = true → strStartsWith href "/" = true → href ∈ anchors →
      ("https://" ++ netlocOf url ++ href) ∈
        (extract_contact_info
          { html := html, text := text, anchorHrefs := anchors } url).contact_links) ∧
    "https://" ++ netlocOf "https://example.com/page" ++ "/contact-us" =
      "https://example.com/contact-us" := by
  constructor
  · intro url href anchors html text hc hs hm
    have h := mem_contactLinksLoop url href anchors hc hm
    unfold rewriteHref at h
    rw [if_pos hs] at h
    simp only [extract_contact_info, List.mem_dedup]
    exact h
  · decide

/-- C6 witness: the amended claim at the spec's concrete example. -/
theorem c6_root_href_rewritten_witness :
    ("https://" ++ netlocOf "https://example.com/page" ++ "/contact-us") ∈
      (extract_contact_info
        { html := "", text := "", anchorHrefs := ["/contact-us"] }
        "https://example.com/page").contact_links :=
  c6_root_href_rewritten.1 "https://example.com/page" "/contact-us" ["/contact-us"]
    "" "" (by decide) (by decide) (by decide)

/-- C8 counterexample: on a 404 primary response the status code is
available from the response, yet the returned record's `http_status` is
`None` (app.py line 131). -/
theorem c8_http_status_not_captured :
    cNet404 true = GetResult.success resp404 ∧ resp404.status_code = 404 ∧
      (check_gtm cNet404 "example.com").http_status = none :=
  ⟨rfl, rfl, by decide⟩

/-- C8 amended: on a 4xx/5xx primary response the failure is recorded in
the status field — `Error:` followed by the `HTTPError` message, which
begins with the numeric status code — but `http_status` is always `None`
in this case; the code is never captured in `http_status`. -/
theorem c8_http_error_recording (net : Bool → GetResult) (url : String)
    (resp : HttpResponse) (h1 : net true = .success resp)
    (h4 : 400 ≤ resp.status_code) (h6 : resp.status_code < 600) :
    (check_gtm net url).http_status = none ∧
      (check_gtm net url).status = "Error: " ++ httpErrorMsg resp ∧
      strStartsWith (check_gtm net url).status
        ("Error: " ++ toString resp.status_code) = true := by
  have he : check_gtm net url =
      errResult (normalize_url url) ("Error: " ++ httpErrorMsg resp) := by
    unfold check_gtm
    rw [h1]
    show primaryBody _ _ = _
    unfold primaryBody
    rw [if_pos ⟨h4, h6⟩]
  rw [he]
  refine ⟨rfl, rfl, ?_⟩
  have h := strStartsWith_append ("Error: " ++ toString resp.status_code) (httpErrorTail resp)
  rw [String.append_assoc] at h
  exact h

/-- C8 witness: the amended claim at the concrete 404 environment. -/
theorem c8_http_error_recording_witness :
    (check_gtm cNet404 "example.com").http_status = none ∧
      (check_gtm cNet404 "example.com").status = "Error: " ++ httpErrorMsg resp404 ∧
      strStartsWith (check_gtm cNet404 "example.com").status
        ("Error: " ++ toString resp404.status_code) = true :=
  c8_http_error_recording cNet404 "example.com" resp404 rfl (by decide) (by decide)

/-- C9 counterexample: `ftp://example.com` carries a scheme in the sense of
`urlparse`, yet `check_gtm` does not use it unchanged — only the prefixes
`http://` and `https://` are recognised (app.py line 63), so `https://` is
prepended. -/
theorem c9_nonhttp_scheme_not_preserved :
    urlHasScheme "ftp://example.com" = true ∧
    (check_gtm cNetErr "ftp://example.com").url = "https://ftp://example.com" ∧
    "https://ftp://example.com" ≠ "ftp://example.com" :=
  ⟨by decide, by decide, by decide⟩

/-- C9 amended: a URL beginning with `http://` or `https://` is used
unchanged; any other URL — schemeless or carrying a different scheme —
gets `https://` prepended; the normalized URL is the one recorded in the
result's `url` field. -/
theorem c9_scheme_injection (net : Bool → GetResult) (url : String) :
    (check_gtm net url).url = normalize_url url ∧
    ((strStartsWith url "http://" || strStartsWith url "https://") = true →
      normalize_url url = url) ∧
    ((strStartsWith url "http://" || strStartsWith url "https://") = false →
      normalize_url url = "https://" ++ url) := by
  refine ⟨scanStep_url _ _ _, fun h => ?_, fun h => ?_⟩
  · rw [normalize_url, if_pos h]
  · rw [normalize_url, if_neg (by simp [h])]

/-- C9 witness: the amended claim at a schemed and a schemeless URL. -/
theorem c9_scheme_injection_witness :
    normalize_url "https://a.com" = "https://a.com" ∧
      normalize_url "example.com" = "https://" ++ "example.com" :=
  ⟨(c9_scheme_injection cNetErr "https://a.com").2.1 (by decide),
    (c9_scheme_injection cNetErr "example.com").2.2 (by decide)⟩

end GtmDetect
